import Mathlib

/-!
Verification of the Auto-Remediation Lambda handler
(src/lambda/lambda_function.py).

The handler is a linear sequence: parse the incoming alarm event, check the
target instance for a `Maintenance` tag, and either send a skip notification
or dispatch an SSM remediation command followed by a success notification.

Modelling choices:
* Python dictionaries with optional keys become structures of `Option` fields;
  `d.get(k, default)` becomes `Option.getD`.
* Exceptions (`AttributeError` from `None.replace`, `ValueError` from
  `datetime.fromisoformat`, `IndexError` from `metrics[0]`, AWS client and
  HTTP failures) become an `Except PyErr` result.
* The three external calls (`ec2.describe_tags`, `ssm.send_command`,
  `http.request`) and each `send_discord` invocation are recorded in an
  effect trace, and their outcomes are supplied by an `Env` record that also
  carries the process-wide configuration read from the environment variables.
* `datetime` values have microsecond resolution, so instants are modelled as
  whole microseconds since the epoch; `datetime.fromisoformat` is supplied by
  the environment (`none` models a parse failure).
-/

/-- Models Python `str.lower()` on the ASCII letters, which is all the handler
compares (tag values against `"true"`). -/
def asciiLowerChar (c : Char) : Char :=
  if 'A' ≤ c && c ≤ 'Z' then Char.ofNat (c.toNat + 32) else c

/-- Models Python `str.lower()` (ASCII range). -/
def pyLower (s : String) : String :=
  String.mk (s.data.map asciiLowerChar)

/-- Models Python `str(x)` for an `Optional[str]` environment variable:
`None` prints as `"None"` inside an f-string. -/
def pyStrOpt : Option String → String
  | none => "None"
  | some s => s

/-- Python exception classes that the handler can raise. -/
inductive PyErr where
  | attributeError
  | valueError
  | indexError
  | clientError
  | httpError
  deriving Repr, DecidableEq

/-- One key/value pair from `ec2.describe_tags(...)['Tags']`. -/
structure Tag where
  Key : String
  Value : String
  deriving Repr, DecidableEq, Inhabited

/-- The `dimensions` object of a metric. -/
structure Dimensions where
  InstanceId : Option String
  deriving Repr, DecidableEq

/-- The `metric` object inside `metricStat`. -/
structure MetricInfo where
  dimensions : Option Dimensions
  deriving Repr, DecidableEq

/-- The `metricStat` object of a metric entry. -/
structure MetricStat where
  metric : Option MetricInfo
  deriving Repr, DecidableEq

/-- One entry of `detail.configuration.metrics`. -/
structure Metric where
  metricStat : Option MetricStat
  deriving Repr, DecidableEq

/-- The `detail.configuration` object. -/
structure Configuration where
  metrics : Option (List Metric)
  deriving Repr, DecidableEq

/-- The `detail.state` object. -/
structure AlarmState where
  reason : Option String
  deriving Repr, DecidableEq

/-- The `detail` object of the event. -/
structure Detail where
  state : Option AlarmState
  configuration : Option Configuration
  deriving Repr, DecidableEq

/-- The incoming EventBridge alarm event; `none` models an absent (or null)
key. -/
structure Event where
  detail : Option Detail
  time : Option String
  deriving Repr, DecidableEq

/-- The empty dict `{}` used as fallback for `detail`. -/
def emptyDetail : Detail := { state := none, configuration := none }

/-- The empty dict `{}` used as fallback for `state`. -/
def emptyState : AlarmState := { reason := none }

/-- The empty dict `{}` appearing in the fallback `[{}]` for `metrics`. -/
def emptyMetric : Metric := { metricStat := none }

/-- The empty dict `{}` used as fallback for `metricStat`. -/
def emptyMetricStat : MetricStat := { metric := none }

/-- The empty dict `{}` used as fallback for `metric`. -/
def emptyMetricInfo : MetricInfo := { dimensions := none }

/-- The empty dict `{}` used as fallback for `dimensions`. -/
def emptyDimensions : Dimensions := { InstanceId := none }

/-- One field of a Discord embed. -/
structure EmbedField where
  name : String
  value : String
  inline : Bool
  deriving Repr, DecidableEq

/-- One Discord embed. -/
structure Embed where
  title : String
  description : String
  color : Nat
  fields : List EmbedField
  timestamp : String
  deriving Repr, DecidableEq

/-- The JSON body posted to the webhook. -/
structure Payload where
  username : String
  embeds : List Embed
  deriving Repr, DecidableEq

/-- An external call attempted by the handler: the AWS tag query, each
`send_discord` invocation, the SSM command dispatch, and the webhook POST. -/
inductive Effect where
  | describeTags (resourceId : String)
  | notifyCall (instanceId title description : String) (color : Nat)
  | sendCommand (instanceIds : List String) (documentName : Option String)
  | httpPost (url : String) (payload : Payload)
  deriving Repr, DecidableEq

/-- Recognizes the webhook POST effect. -/
def Effect.isHttpPost : Effect → Bool
  | .httpPost _ _ => true
  | _ => false

/-- Recognizes a `send_discord` invocation (a notification-send attempt). -/
def Effect.isNotifyCall : Effect → Bool
  | .notifyCall _ _ _ _ => true
  | _ => false

/-- Recognizes the SSM command dispatch effect. -/
def Effect.isSendCommand : Effect → Bool
  | .sendCommand _ _ => true
  | _ => false

/-- The dict returned by the handler: `{"status": ...}`. -/
structure Ret where
  status : String
  deriving Repr, DecidableEq

/-- Process-wide configuration and the behaviour of the external world:
the two environment variables, the current time, and the outcome of each
external call. -/
structure Env where
  DISCORD_WEBHOOK : Option String
  SSM_DOCUMENT : Option String
  now_micros : Int
  utcnow_iso : String
  fromisoformat : String → Option Int
  describeTags : String → Except PyErr (List Tag)
  sendCommand : List String → Option String → Except PyErr Unit
  httpPost : String → Payload → Except PyErr Unit

/-- Models Python truthiness of an `Optional[str]`: `None` and `""` are
falsy. -/
def pyTruthy : Option String → Bool
  | none => false
  | some s => !s.isEmpty

/-- The payload built by `send_discord`. -/
def discordPayload (utcnowIso instanceId title description : String)
    (color : Nat) : Payload :=
  { username := "Cloud Janitor"
    embeds := [{
      title := title
      description := description
      color := color
      fields := [
        { name := "Instance ID", value := "`" ++ instanceId ++ "`", inline := true },
        { name := "Region", value := "`ap-southeast-1`", inline := true }]
      timestamp := utcnowIso }] }

/-- `send_discord(instance_id, title, description, color)`: returns early when
the webhook variable is falsy, otherwise builds the payload and POSTs it.
The first component is the list of effects performed (the invocation itself is
recorded as `notifyCall`); the second is the outcome (`http.request` may
raise). -/
def send_discord (env : Env) (instance_id title description : String)
    (color : Nat) : List Effect × Except PyErr Unit :=
  if pyTruthy env.DISCORD_WEBHOOK then
    let url := env.DISCORD_WEBHOOK.getD ""
    let payload := discordPayload env.utcnow_iso instance_id title description color
    ([.notifyCall instance_id title description color, .httpPost url payload],
      env.httpPost url payload)
  else
    ([.notifyCall instance_id title description color], .ok ())

/-- `detail.get('state', {}).get('reason', 'N/A')` with
`detail = event.get('detail', {})`. -/
def state_reason_of (event : Event) : String :=
  (((event.detail.getD emptyDetail).state.getD emptyState).reason).getD "N/A"

/-- `detail.get('configuration', {}).get('metrics', [{}])`. -/
def metrics_of (detail : Detail) : List Metric :=
  match detail.configuration with
  | none => [emptyMetric]
  | some c => c.metrics.getD [emptyMetric]

/-- `m.get('metricStat', {}).get('metric', {}).get('dimensions', {})
.get('InstanceId', 'Unknown')` for a metric entry `m`. -/
def instance_id_of (m : Metric) : String :=
  ((((m.metricStat.getD emptyMetricStat).metric.getD emptyMetricInfo).dimensions.getD
      emptyDimensions).InstanceId).getD "Unknown"

/-- `any(t['Key'] == 'Maintenance' and t['Value'].lower() == 'true' for t in
tags)`. -/
def is_maintenance_check (tags : List Tag) : Bool :=
  tags.any fun t => t.Key == "Maintenance" && pyLower t.Value == "true"

/-- `int((datetime.now(tz) - event_time).total_seconds())`: the difference is
an exact whole number of microseconds, `total_seconds()` is that number over
10^6, and Python `int()` truncates toward zero — T-division by 10^6. -/
def downtime_of (deltaMicros : Int) : Int :=
  Int.tdiv deltaMicros 1000000

/-- The skip-notification title. -/
def skipTitle : String := "⚠️ **Maintenance Mode Detected**"

/-- The skip-notification description. -/
def skipDescription (state_reason : String) : String :=
  "**Reason:** " ++ state_reason ++ "\n**Action:** Automation skipped to avoid interference."

/-- The success-notification title. -/
def successTitle : String := "🚨 **Auto-Remediation Triggered**"

/-- The success-notification description built from the f-string at the end of
the handler. -/
def success_description (state_reason : String) (downtime_duration : Int)
    (ssm_document : Option String) : String :=
  "**Cause of Downtime:** `" ++ state_reason ++ "`\n" ++
  "**Time Since Detection:** `" ++ toString downtime_duration ++ " seconds`\n" ++
  "**Remediation:** Triggered `" ++ pyStrOpt ssm_document ++ "` successfully."

/-- `lambda_handler(event, context)`: the full handler body. Returns the trace
of external calls attempted together with either the returned dict or the
uncaught exception. -/
def lambda_handler (env : Env) (event : Event) : List Effect × Except PyErr Ret :=
  let detail := event.detail.getD emptyDetail
  let state_reason := state_reason_of event
  match event.time with
  | none => ([], .error .attributeError)
  | some event_time_str =>
  match env.fromisoformat (event_time_str.replace "Z" "+00:00") with
  | none => ([], .error .valueError)
  | some event_time =>
  let downtime_duration := downtime_of (env.now_micros - event_time)
  match (metrics_of detail)[0]? with
  | none => ([], .error .indexError)
  | some m0 =>
  let instance_id := instance_id_of m0
  match env.describeTags instance_id with
  | .error e => ([.describeTags instance_id], .error e)
  | .ok tags =>
  if is_maintenance_check tags then
    let r := send_discord env instance_id skipTitle (skipDescription state_reason) 16776960
    (Effect.describeTags instance_id :: r.1,
      r.2.map fun _ => ({ status := "skipped" } : Ret))
  else
  match env.sendCommand [instance_id] env.SSM_DOCUMENT with
  | .error e =>
      ([.describeTags instance_id, .sendCommand [instance_id] env.SSM_DOCUMENT], .error e)
  | .ok _ =>
    let description := success_description state_reason downtime_duration env.SSM_DOCUMENT
    let r := send_discord env instance_id successTitle description 15158332
    (Effect.describeTags instance_id :: Effect.sendCommand [instance_id] env.SSM_DOCUMENT :: r.1,
      r.2.map fun _ => ({ status := "success" } : Ret))

deriving instance DecidableEq for Except

/-- Fixed environment for concrete runs: no webhook configured, a document
name set, all external calls succeed, clocks at the epoch. -/
def baseEnv : Env where
  DISCORD_WEBHOOK := none
  SSM_DOCUMENT := some "RestartDocument"
  now_micros := 0
  utcnow_iso := "1970-01-01T00:00:00"
  fromisoformat := fun _ => some 0
  describeTags := fun _ => .ok []
  sendCommand := fun _ _ => .ok ()
  httpPost := fun _ _ => .ok ()

/-- A minimal well-formed event: a timestamp and nothing else. -/
def baseEvent : Event where
  detail := none
  time := some "2024-01-01T00:00:00Z"

/-- The maintenance tag of the spec's skip scenario. -/
def tagsMaint : List Tag := [{ Key := "Maintenance", Value := "True" }]

/-- Environment whose tag query reports the maintenance tag. -/
def envMaint : Env := { baseEnv with describeTags := fun _ => .ok tagsMaint }

/-- Environment whose SSM command dispatch fails. -/
def envCmdFail : Env := { baseEnv with sendCommand := fun _ _ => .error .clientError }

/-- Environment whose clock sits 1.5 s before the event timestamp. -/
def envClockSkew : Env := { baseEnv with fromisoformat := fun _ => some 1500000 }

/-- An event with no `time` key. -/
def eventNoTime : Event where
  detail := none
  time := none

/-- An event whose `detail.configuration.metrics` is present but empty. -/
def eventEmptyMetrics : Event where
  detail := some { state := none, configuration := some { metrics := some [] } }
  time := some "2024-01-01T00:00:00Z"

theorem aux_maintenance_iff (tags : List Tag) :
    is_maintenance_check tags = true ↔
      ∃ t ∈ tags, t.Key = "Maintenance" ∧ pyLower t.Value = "true" := by
  simp [is_maintenance_check, List.any_eq_true]

theorem aux_send_discord_notify (env : Env) (i t d : String) (c : Nat) :
    (send_discord env i t d c).1.filter Effect.isNotifyCall =
      [Effect.notifyCall i t d c] := by
  unfold send_discord
  split <;> simp [Effect.isNotifyCall]

theorem aux_send_discord_no_command (env : Env) (i t d : String) (c : Nat) :
    (send_discord env i t d c).1.filter Effect.isSendCommand = [] := by
  unfold send_discord
  split <;> simp [Effect.isSendCommand]

theorem aux_send_discord_mem (env : Env) (i t d : String) (c : Nat) :
    Effect.notifyCall i t d c ∈ (send_discord env i t d c).1 := by
  unfold send_discord
  split <;> simp

theorem aux_send_discord_ok (env : Env) (i t d : String) (c : Nat)
    (hpost : env.httpPost = fun _ _ => .ok ()) :
    (send_discord env i t d c).2 = .ok () := by
  unfold send_discord
  split
  · simp [hpost]
  · rfl

theorem aux_run_skip (env : Env) (event : Event) (ts : String) (t : Int)
    (m0 : Metric) (ms : List Metric) (tags : List Tag)
    (htime : event.time = some ts)
    (hparse : env.fromisoformat (ts.replace "Z" "+00:00") = some t)
    (hm0 : metrics_of (event.detail.getD emptyDetail) = m0 :: ms)
    (htags : env.describeTags (instance_id_of m0) = .ok tags)
    (hmaint : is_maintenance_check tags = true) :
    lambda_handler env event =
      (Effect.describeTags (instance_id_of m0) ::
        (send_discord env (instance_id_of m0) skipTitle
          (skipDescription (state_reason_of event)) 16776960).1,
       (send_discord env (instance_id_of m0) skipTitle
          (skipDescription (state_reason_of event)) 16776960).2.map
         fun _ => ({ status := "skipped" } : Ret)) := by
  simp [lambda_handler, htime, hparse, hm0, htags, hmaint]

theorem aux_run_cmdfail (env : Env) (event : Event) (ts : String) (t : Int)
    (m0 : Metric) (ms : List Metric) (tags : List Tag) (e : PyErr)
    (htime : event.time = some ts)
    (hparse : env.fromisoformat (ts.replace "Z" "+00:00") = some t)
    (hm0 : metrics_of (event.detail.getD emptyDetail) = m0 :: ms)
    (htags : env.describeTags (instance_id_of m0) = .ok tags)
    (hmaint : is_maintenance_check tags = false)
    (hcmd : env.sendCommand [instance_id_of m0] env.SSM_DOCUMENT = .error e) :
    lambda_handler env event =
      ([Effect.describeTags (instance_id_of m0),
        Effect.sendCommand [instance_id_of m0] env.SSM_DOCUMENT], .error e) := by
  simp [lambda_handler, htime, hparse, hm0, htags, hmaint, hcmd]

theorem aux_run_success (env : Env) (event : Event) (ts : String) (t : Int)
    (m0 : Metric) (ms : List Metric) (tags : List Tag)
    (htime : event.time = some ts)
    (hparse : env.fromisoformat (ts.replace "Z" "+00:00") = some t)
    (hm0 : metrics_of (event.detail.getD emptyDetail) = m0 :: ms)
    (htags : env.describeTags (instance_id_of m0) = .ok tags)
    (hmaint : is_maintenance_check tags = false)
    (hcmd : env.sendCommand [instance_id_of m0] env.SSM_DOCUMENT = .ok ()) :
    lambda_handler env event =
      (Effect.describeTags (instance_id_of m0) ::
        Effect.sendCommand [instance_id_of m0] env.SSM_DOCUMENT ::
        (send_discord env (instance_id_of m0) successTitle
          (success_description (state_reason_of event)
            (downtime_of (env.now_micros - t)) env.SSM_DOCUMENT) 15158332).1,
       (send_discord env (instance_id_of m0) successTitle
          (success_description (state_reason_of event)
            (downtime_of (env.now_micros - t)) env.SSM_DOCUMENT) 15158332).2.map
         fun _ => ({ status := "success" } : Ret)) := by
  simp [lambda_handler, htime, hparse, hm0, htags, hmaint, hcmd]

/-- C2: the maintenance check returns true iff some returned tag has key
exactly "Maintenance" and a value whose lowercase form equals "true"; in
particular it returns false for the empty tag list. -/
theorem maintenance_check_iff_spec (tags : List Tag) :
    (is_maintenance_check tags = true ↔
      ∃ t ∈ tags, t.Key = "Maintenance" ∧ pyLower t.Value = "true") ∧
    is_maintenance_check [] = false :=
  ⟨aux_maintenance_iff tags, rfl⟩

/-- C5: a missing nested `detail.state.reason` yields the literal "N/A", and a
missing nested `...dimensions.InstanceId` yields the literal "Unknown". -/
theorem missing_fields_yield_defaults (event : Event) (m : Metric)
    (hreason : ((event.detail.getD emptyDetail).state.getD emptyState).reason = none)
    (hiid : (((m.metricStat.getD emptyMetricStat).metric.getD
        emptyMetricInfo).dimensions.getD emptyDimensions).InstanceId = none) :
    state_reason_of event = "N/A" ∧ instance_id_of m = "Unknown" := by
  unfold state_reason_of instance_id_of
  rw [hreason, hiid]
  exact ⟨rfl, rfl⟩

/-- C5 witness: the defaults at the minimal event and the empty metric. -/
theorem missing_fields_yield_defaults_witness :
    ((baseEvent.detail.getD emptyDetail).state.getD emptyState).reason = none ∧
    (((emptyMetric.metricStat.getD emptyMetricStat).metric.getD
        emptyMetricInfo).dimensions.getD emptyDimensions).InstanceId = none ∧
    (state_reason_of baseEvent = "N/A" ∧ instance_id_of emptyMetric = "Unknown") :=
  ⟨rfl, rfl, missing_fields_yield_defaults baseEvent emptyMetric rfl rfl⟩

/-- C6: with no webhook endpoint configured, `send_discord` performs no
network call and returns without raising. -/
theorem notify_noop_without_webhook (env : Env) (i t d : String) (c : Nat)
    (h : env.DISCORD_WEBHOOK = none) :
    (send_discord env i t d c).1.filter Effect.isHttpPost = [] ∧
    (send_discord env i t d c).2 = .ok () := by
  unfold send_discord
  rw [h]
  exact ⟨by simp [pyTruthy, Effect.isHttpPost], rfl⟩

/-- C6 witness: the no-webhook environment at concrete arguments. -/
theorem notify_noop_without_webhook_witness :
    baseEnv.DISCORD_WEBHOOK = none ∧
    ((send_discord baseEnv "i-abc123" "title" "description" 0).1.filter
        Effect.isHttpPost = [] ∧
      (send_discord baseEnv "i-abc123" "title" "description" 0).2 = .ok ()) :=
  ⟨rfl, notify_noop_without_webhook baseEnv "i-abc123" "title" "description" 0 rfl⟩

/-- C8: an event whose `time` key is absent (or null) makes the handler raise
during context extraction — `None.replace` has no defensive default — and the
effect trace is empty: no external call was made. -/
theorem missing_time_raises_before_calls (env : Env) (event : Event)
    (h : event.time = none) :
    lambda_handler env event = ([], .error .attributeError) := by
  simp [lambda_handler, h]

/-- C8 witness: the timeless event under the base environment. -/
theorem missing_time_raises_before_calls_witness :
    eventNoTime.time = none ∧
    lambda_handler baseEnv eventNoTime = ([], .error .attributeError) :=
  ⟨rfl, missing_time_raises_before_calls baseEnv eventNoTime rfl⟩

/-- C1: a tag with key "Maintenance" and case-insensitive value "true" makes
the handler dispatch no remediation command and return status "skipped"; a
"Maintenance" tag valued "false" fails the check and the handler proceeds to
dispatch the remediation command. -/
theorem maintenance_tag_gates_remediation (env : Env) (event : Event) (ts : String)
    (t : Int) (m0 : Metric) (ms : List Metric) (tags : List Tag)
    (htime : event.time = some ts)
    (hparse : env.fromisoformat (ts.replace "Z" "+00:00") = some t)
    (hm0 : metrics_of (event.detail.getD emptyDetail) = m0 :: ms)
    (htags : env.describeTags (instance_id_of m0) = .ok tags)
    (hpost : env.httpPost = fun _ _ => .ok ()) :
    ((∃ tg ∈ tags, tg.Key = "Maintenance" ∧ pyLower tg.Value = "true") →
      (lambda_handler env event).1.filter Effect.isSendCommand = [] ∧
      (lambda_handler env event).2 = .ok { status := "skipped" }) ∧
    is_maintenance_check [{ Key := "Maintenance", Value := "false" }] = false ∧
    (is_maintenance_check tags = false →
      Effect.sendCommand [instance_id_of m0] env.SSM_DOCUMENT ∈
        (lambda_handler env event).1) := by
  refine ⟨?_, rfl, ?_⟩
  · intro hex
    have hm : is_maintenance_check tags = true := (aux_maintenance_iff tags).mpr hex
    rw [aux_run_skip env event ts t m0 ms tags htime hparse hm0 htags hm]
    refine ⟨?_, ?_⟩
    · simp [Effect.isSendCommand, aux_send_discord_no_command]
    · rw [aux_send_discord_ok env _ _ _ _ hpost]
      rfl
  · intro hm
    cases hcmd : env.sendCommand [instance_id_of m0] env.SSM_DOCUMENT with
    | error e =>
        rw [aux_run_cmdfail env event ts t m0 ms tags e htime hparse hm0 htags hm hcmd]
        simp
    | ok u =>
        cases u
        rw [aux_run_success env event ts t m0 ms tags htime hparse hm0 htags hm hcmd]
        simp

/-- C1 witness: the skip scenario with tag value "True" and the dispatch
scenario with tag value "false", at the concrete maintenance environment. -/
theorem maintenance_tag_gates_remediation_witness :
    baseEvent.time = some "2024-01-01T00:00:00Z" ∧
    envMaint.fromisoformat ("2024-01-01T00:00:00Z".replace "Z" "+00:00") = some 0 ∧
    metrics_of (baseEvent.detail.getD emptyDetail) = [emptyMetric] ∧
    envMaint.describeTags (instance_id_of emptyMetric) = .ok tagsMaint ∧
    envMaint.httpPost = (fun _ _ => .ok ()) ∧
    (((∃ tg ∈ tagsMaint, tg.Key = "Maintenance" ∧ pyLower tg.Value = "true") →
        (lambda_handler envMaint baseEvent).1.filter Effect.isSendCommand = [] ∧
        (lambda_handler envMaint baseEvent).2 = .ok { status := "skipped" }) ∧
      is_maintenance_check [{ Key := "Maintenance", Value := "false" }] = false ∧
      (is_maintenance_check tagsMaint = false →
        Effect.sendCommand [instance_id_of emptyMetric] envMaint.SSM_DOCUMENT ∈
          (lambda_handler envMaint baseEvent).1)) :=
  ⟨rfl, rfl, rfl, rfl, rfl,
    maintenance_tag_gates_remediation envMaint baseEvent "2024-01-01T00:00:00Z" 0
      emptyMetric [] tagsMaint rfl rfl rfl rfl rfl⟩

/-- C3: every run of the handler that completes normally performs exactly one
notification-send attempt (one `send_discord` invocation) — skip path or
success path, never both and never neither. -/
theorem exactly_one_notification_attempt (env : Env) (event : Event)
    (trace : List Effect) (r : Ret)
    (h : lambda_handler env event = (trace, .ok r)) :
    (trace.filter Effect.isNotifyCall).length = 1 := by
  unfold lambda_handler at h
  dsimp only at h
  split at h
  · simp at h
  · split at h
    · simp at h
    · split at h
      · simp at h
      · split at h
        · simp at h
        · split at h
          · simp [Prod.ext_iff] at h
            obtain ⟨h1, _⟩ := h
            subst h1
            simp [Effect.isNotifyCall, aux_send_discord_notify]
          · split at h
            · simp at h
            · simp [Prod.ext_iff] at h
              obtain ⟨h1, _⟩ := h
              subst h1
              simp [Effect.isNotifyCall, aux_send_discord_notify]

/-- C3 witness: the success path of the base run performs exactly one
notification attempt. -/
theorem exactly_one_notification_attempt_witness :
    lambda_handler baseEnv baseEvent =
      ([Effect.describeTags "Unknown",
        Effect.sendCommand ["Unknown"] (some "RestartDocument"),
        Effect.notifyCall "Unknown" successTitle
          (success_description "N/A" 0 (some "RestartDocument")) 15158332],
       .ok { status := "success" }) ∧
    (([Effect.describeTags "Unknown",
        Effect.sendCommand ["Unknown"] (some "RestartDocument"),
        Effect.notifyCall "Unknown" successTitle
          (success_description "N/A" 0 (some "RestartDocument")) 15158332] :
        List Effect).filter Effect.isNotifyCall).length = 1 :=
  ⟨by decide,
    exactly_one_notification_attempt baseEnv baseEvent
      [Effect.describeTags "Unknown",
        Effect.sendCommand ["Unknown"] (some "RestartDocument"),
        Effect.notifyCall "Unknown" successTitle
          (success_description "N/A" 0 (some "RestartDocument")) 15158332]
      { status := "success" } (by decide)⟩

/-- C7: when the SSM command dispatch fails on a non-maintenance event, the
exception propagates out of the handler and no notification of any kind — no
`send_discord` invocation and no webhook POST — happens in that invocation. -/
theorem dispatch_failure_aborts_silently (env : Env) (event : Event) (ts : String)
    (t : Int) (m0 : Metric) (ms : List Metric) (tags : List Tag) (e : PyErr)
    (htime : event.time = some ts)
    (hparse : env.fromisoformat (ts.replace "Z" "+00:00") = some t)
    (hm0 : metrics_of (event.detail.getD emptyDetail) = m0 :: ms)
    (htags : env.describeTags (instance_id_of m0) = .ok tags)
    (hmaint : is_maintenance_check tags = false)
    (hcmd : env.sendCommand [instance_id_of m0] env.SSM_DOCUMENT = .error e) :
    (lambda_handler env event).2 = .error e ∧
    (lambda_handler env event).1.filter Effect.isNotifyCall = [] ∧
    (lambda_handler env event).1.filter Effect.isHttpPost = [] := by
  rw [aux_run_cmdfail env event ts t m0 ms tags e htime hparse hm0 htags hmaint hcmd]
  exact ⟨rfl, rfl, rfl⟩

/-- C7 witness: the failing-dispatch environment at the base event. -/
theorem dispatch_failure_aborts_silently_witness :
    baseEvent.time = some "2024-01-01T00:00:00Z" ∧
    envCmdFail.fromisoformat ("2024-01-01T00:00:00Z".replace "Z" "+00:00") = some 0 ∧
    metrics_of (baseEvent.detail.getD emptyDetail) = [emptyMetric] ∧
    envCmdFail.describeTags (instance_id_of emptyMetric) = .ok [] ∧
    is_maintenance_check [] = false ∧
    envCmdFail.sendCommand [instance_id_of emptyMetric] envCmdFail.SSM_DOCUMENT =
      .error .clientError ∧
    ((lambda_handler envCmdFail baseEvent).2 = .error .clientError ∧
      (lambda_handler envCmdFail baseEvent).1.filter Effect.isNotifyCall = [] ∧
      (lambda_handler envCmdFail baseEvent).1.filter Effect.isHttpPost = []) :=
  ⟨rfl, rfl, rfl, rfl, rfl, rfl,
    dispatch_failure_aborts_silently envCmdFail baseEvent "2024-01-01T00:00:00Z" 0
      emptyMetric [] [] .clientError rfl rfl rfl rfl rfl rfl⟩

/-- C9: when `detail.configuration.metrics` is present but empty, indexing the
first metric raises IndexError (with no external call made) instead of
substituting the default; the default `[{}]` — and hence instance id
"Unknown" — only applies when the `metrics` key itself is absent. -/
theorem empty_metrics_raises_index_error (env : Env) (event : Event) (ts : String)
    (t : Int) (c : Configuration)
    (htime : event.time = some ts)
    (hparse : env.fromisoformat (ts.replace "Z" "+00:00") = some t)
    (hconf : (event.detail.getD emptyDetail).configuration = some c) :
    (c.metrics = some [] → lambda_handler env event = ([], .error .indexError)) ∧
    (c.metrics = none →
      metrics_of (event.detail.getD emptyDetail) = [emptyMetric] ∧
      instance_id_of emptyMetric = "Unknown") := by
  constructor
  · intro hm
    simp [lambda_handler, htime, hparse, metrics_of, hconf, hm]
  · intro hm
    exact ⟨by simp [metrics_of, hconf, hm], rfl⟩

/-- C9 witness: the event carrying an explicitly empty metrics list. -/
theorem empty_metrics_raises_index_error_witness :
    eventEmptyMetrics.time = some "2024-01-01T00:00:00Z" ∧
    baseEnv.fromisoformat ("2024-01-01T00:00:00Z".replace "Z" "+00:00") = some 0 ∧
    (eventEmptyMetrics.detail.getD emptyDetail).configuration =
      some { metrics := some [] } ∧
    ((({ metrics := some [] } : Configuration).metrics = some [] →
        lambda_handler baseEnv eventEmptyMetrics = ([], .error .indexError)) ∧
      (({ metrics := some [] } : Configuration).metrics = none →
        metrics_of (eventEmptyMetrics.detail.getD emptyDetail) = [emptyMetric] ∧
        instance_id_of emptyMetric = "Unknown")) :=
  ⟨rfl, rfl, rfl,
    empty_metrics_raises_index_error baseEnv eventEmptyMetrics
      "2024-01-01T00:00:00Z" 0 { metrics := some [] } rfl rfl rfl⟩

/-- C10: when the instance-id field is missing the handler does not stop: the
literal "Unknown" is the resource id of the tag lookup and, when the
maintenance check is false, the remediation command is dispatched against
instance id "Unknown". -/
theorem unknown_instance_still_remediated (env : Env) (event : Event) (ts : String)
    (t : Int) (m0 : Metric) (ms : List Metric) (tags : List Tag)
    (htime : event.time = some ts)
    (hparse : env.fromisoformat (ts.replace "Z" "+00:00") = some t)
    (hm0 : metrics_of (event.detail.getD emptyDetail) = m0 :: ms)
    (hiid : (((m0.metricStat.getD emptyMetricStat).metric.getD
        emptyMetricInfo).dimensions.getD emptyDimensions).InstanceId = none)
    (htags : env.describeTags "Unknown" = .ok tags)
    (hmaint : is_maintenance_check tags = false) :
    Effect.describeTags "Unknown" ∈ (lambda_handler env event).1 ∧
    Effect.sendCommand ["Unknown"] env.SSM_DOCUMENT ∈ (lambda_handler env event).1 := by
  have hid : instance_id_of m0 = "Unknown" := by
    unfold instance_id_of
    rw [hiid]
    rfl
  have htags2 : env.describeTags (instance_id_of m0) = .ok tags := by
    rw [hid]
    exact htags
  cases hcmd : env.sendCommand [instance_id_of m0] env.SSM_DOCUMENT with
  | error e =>
      rw [aux_run_cmdfail env event ts t m0 ms tags e htime hparse hm0 htags2 hmaint hcmd]
      simp [hid]
  | ok u =>
      cases u
      rw [aux_run_success env event ts t m0 ms tags htime hparse hm0 htags2 hmaint hcmd]
      simp [hid]

/-- C10 witness: the base event has no instance id anywhere, yet the base run
queries tags for "Unknown" and dispatches the command to "Unknown". -/
theorem unknown_instance_still_remediated_witness :
    baseEvent.time = some "2024-01-01T00:00:00Z" ∧
    baseEnv.fromisoformat ("2024-01-01T00:00:00Z".replace "Z" "+00:00") = some 0 ∧
    metrics_of (baseEvent.detail.getD emptyDetail) = [emptyMetric] ∧
    (((emptyMetric.metricStat.getD emptyMetricStat).metric.getD
        emptyMetricInfo).dimensions.getD emptyDimensions).InstanceId = none ∧
    baseEnv.describeTags "Unknown" = .ok [] ∧
    is_maintenance_check [] = false ∧
    (Effect.describeTags "Unknown" ∈ (lambda_handler baseEnv baseEvent).1 ∧
      Effect.sendCommand ["Unknown"] baseEnv.SSM_DOCUMENT ∈
        (lambda_handler baseEnv baseEvent).1) :=
  ⟨rfl, rfl, rfl, rfl, rfl, rfl,
    unknown_instance_still_remediated baseEnv baseEvent "2024-01-01T00:00:00Z" 0
      emptyMetric [] [] rfl rfl rfl rfl rfl rfl⟩

/-- C4 counterexample: with the handler's clock 1.5 s behind the event
timestamp, the dispatched downtime value is -1 — Python int() truncates
toward zero — while the floor of the same difference in seconds is -2, both
as floor division of the microsecond difference and as the floor of the
rational quotient. The claim's floor rounding is therefore wrong for negative
differences. -/
theorem downtime_floor_counterexample :
    Effect.notifyCall "Unknown" successTitle
        (success_description "N/A" (-1) (some "RestartDocument")) 15158332 ∈
      (lambda_handler envClockSkew baseEvent).1 ∧
    downtime_of (envClockSkew.now_micros - 1500000) = -1 ∧
    Int.fdiv (envClockSkew.now_micros - 1500000) 1000000 = -2 ∧
    (⌊((envClockSkew.now_micros - 1500000 : Int) : ℚ) / 1000000⌋ : ℤ) = -2 := by
  refine ⟨by decide, by decide, by decide, ?_⟩
  norm_num [envClockSkew, baseEnv]

/-- C4 amended: downtimeSeconds is int(now - eventTime) truncated toward zero
(equal to the floor for non-negative differences, but not for negative
fractional ones), and the value appears verbatim — via its decimal rendering —
in the success notification description. -/
theorem downtime_truncates_toward_zero (env : Env) (event : Event) (ts : String)
    (t : Int) (m0 : Metric) (ms : List Metric) (tags : List Tag)
    (htime : event.time = some ts)
    (hparse : env.fromisoformat (ts.replace "Z" "+00:00") = some t)
    (hm0 : metrics_of (event.detail.getD emptyDetail) = m0 :: ms)
    (htags : env.describeTags (instance_id_of m0) = .ok tags)
    (hmaint : is_maintenance_check tags = false)
    (hcmd : env.sendCommand [instance_id_of m0] env.SSM_DOCUMENT = .ok ()) :
    Effect.notifyCall (instance_id_of m0) successTitle
        (success_description (state_reason_of event)
          (downtime_of (env.now_micros - t)) env.SSM_DOCUMENT) 15158332 ∈
      (lambda_handler env event).1 ∧
    downtime_of (env.now_micros - t) = Int.tdiv (env.now_micros - t) 1000000 ∧
    (0 ≤ env.now_micros - t →
      downtime_of (env.now_micros - t) = Int.fdiv (env.now_micros - t) 1000000) ∧
    ∀ sr d doc, success_description sr d doc =
      ("**Cause of Downtime:** `" ++ sr ++ "`\n" ++ "**Time Since Detection:** `") ++
        toString d ++
        (" seconds`\n" ++ "**Remediation:** Triggered `" ++ pyStrOpt doc ++
          "` successfully.") := by
  refine ⟨?_, rfl, ?_, ?_⟩
  · rw [aux_run_success env event ts t m0 ms tags htime hparse hm0 htags hmaint hcmd]
    exact List.mem_cons_of_mem _ (List.mem_cons_of_mem _
      (aux_send_discord_mem _ _ _ _ _))
  · intro hge
    unfold downtime_of
    rw [Int.tdiv_eq_ediv hge (by decide), Int.fdiv_eq_ediv _ (by decide)]
  · intro sr d doc
    simp [success_description, String.append_assoc]

/-- C4 amended witness: the base run dispatches downtime 0; truncation and
floor agree there. -/
theorem downtime_truncates_toward_zero_witness :
    baseEvent.time = some "2024-01-01T00:00:00Z" ∧
    baseEnv.fromisoformat ("2024-01-01T00:00:00Z".replace "Z" "+00:00") = some 0 ∧
    metrics_of (baseEvent.detail.getD emptyDetail) = [emptyMetric] ∧
    baseEnv.describeTags (instance_id_of emptyMetric) = .ok [] ∧
    is_maintenance_check [] = false ∧
    baseEnv.sendCommand [instance_id_of emptyMetric] baseEnv.SSM_DOCUMENT = .ok () ∧
    (Effect.notifyCall (instance_id_of emptyMetric) successTitle
        (success_description (state_reason_of baseEvent)
          (downtime_of (baseEnv.now_micros - 0)) baseEnv.SSM_DOCUMENT) 15158332 ∈
      (lambda_handler baseEnv baseEvent).1 ∧
    downtime_of (baseEnv.now_micros - 0) = Int.tdiv (baseEnv.now_micros - 0) 1000000 ∧
    (0 ≤ baseEnv.now_micros - 0 →
      downtime_of (baseEnv.now_micros - 0) = Int.fdiv (baseEnv.now_micros - 0) 1000000) ∧
    ∀ sr d doc, success_description sr d doc =
      ("**Cause of Downtime:** `" ++ sr ++ "`\n" ++ "**Time Since Detection:** `") ++
        toString d ++
        (" seconds`\n" ++ "**Remediation:** Triggered `" ++ pyStrOpt doc ++
          "` successfully.")) :=
  ⟨rfl, rfl, rfl, rfl, rfl, rfl,
    downtime_truncates_toward_zero baseEnv baseEvent "2024-01-01T00:00:00Z" 0
      emptyMetric [] [] rfl rfl rfl rfl rfl rfl⟩
